import Mathlib

/-!
Verification of the NTC bus tracker location engine.

This file gives a shallow embedding of the location-tracking core of the
bus tracker service and proves the specified properties about it.

Embedding conventions:
* Timestamps are integers (milliseconds since the epoch), as produced by
  `Date.now()` in the source.
* Numeric payload fields (coordinates, speed, heading, accuracy, radius,
  distances) are rationals; the source computes on JS numbers.
* Optional request fields are `Option` values (`none` = absent from the
  request, or a value that parses to `NaN`, which the source treats as
  absent via `parseInt`/`parseFloat` falsy checks).
* Identifiers (`busId`, `tripId`) are opaque: modelled as `Nat`.
* Fallible handlers return `Except ApiErr`.
-/

namespace BusTracker

/-- Motion status enumeration of the `LocationUpdate` model
(`status` field, enum `['moving', 'stopped', 'idle']`). -/
inductive MotionStatus
  | moving
  | stopped
  | idle
  deriving DecidableEq, Repr

/-- Status derivation of `locationUpdateSchema.pre('save')`:
`speed === 0` gives `stopped`; `speed > 0 && speed < 5` gives `idle`;
otherwise `moving`. -/
def classifyStatus (speed : ℚ) : MotionStatus :=
  if speed = 0 then .stopped
  else if 0 < speed ∧ speed < 5 then .idle
  else .moving

/-- The `coordinates` sub-document `{lat, lng}`. -/
structure Coordinates where
  lat : ℚ
  lng : ℚ
  deriving DecidableEq, Repr

/-- A stored `LocationUpdate` document. -/
structure LocationRecord where
  busId : ℕ
  tripId : Option ℕ
  coordinates : Coordinates
  speed : ℚ
  heading : Option ℚ
  accuracy : Option ℚ
  timestamp : ℤ
  status : MotionStatus
  deriving DecidableEq, Repr

/-- Request body of `POST /api/locations` as seen by the `validate`
middleware.  `clientStatus` models a (extraneous) client-supplied
motion-status key in the payload: it is not declared in
`createLocationUpdateSchema`, and Joi rejects unknown keys. -/
structure IngestInput where
  busId : ℕ
  tripId : Option ℕ
  coordinates : Coordinates
  speed : Option ℚ
  heading : Option ℚ
  accuracy : Option ℚ
  timestamp : Option ℤ
  clientStatus : Option MotionStatus
  deriving DecidableEq, Repr

/-- Error kinds of `ApiError`: HTTP 400 (validation), HTTP 404
(not found), and a backing-store failure. -/
inductive ApiErr
  | badRequest
  | notFound
  | storeFail
  deriving DecidableEq, Repr

/-- Joi validation `createLocationUpdateSchema`: `lat ∈ [-90,90]`,
`lng ∈ [-180,180]`, `speed ∈ [0,120]`, `heading ∈ [0,360]` (both Joi
bounds inclusive), `accuracy ≥ 0`; optional fields are only checked when
present; an unknown key (the client motion-status field) fails
validation, since the Joi object schema does not allow unknown keys. -/
def joiValidates (i : IngestInput) : Bool :=
  decide (-90 ≤ i.coordinates.lat) && decide (i.coordinates.lat ≤ 90) &&
  decide (-180 ≤ i.coordinates.lng) && decide (i.coordinates.lng ≤ 180) &&
  (i.speed.all fun s => decide (0 ≤ s) && decide (s ≤ 120)) &&
  (i.heading.all fun h => decide (0 ≤ h) && decide (h ≤ 360)) &&
  (i.accuracy.all fun a => decide (0 ≤ a)) &&
  i.clientStatus.isNone

/-- The document built by `LocationUpdate.create` in
`createLocationUpdate` plus the `pre('save')` hook: `speed` defaults
to `0` (schema default), `timestamp` is set to `new Date()` (the
ingestion time) by the controller, and `status` is recomputed from
`speed` by the pre-save hook. -/
def mkRecord (i : IngestInput) (now : ℤ) : LocationRecord :=
  { busId := i.busId
    tripId := i.tripId
    coordinates := i.coordinates
    speed := i.speed.getD 0
    heading := i.heading
    accuracy := i.accuracy
    timestamp := now
    status := classifyStatus (i.speed.getD 0) }

/-- The `POST /api/locations` pipeline: `validate(createLocationUpdateSchema)`
middleware, then the `createLocationUpdate` controller (`Bus.findById`
check, then `LocationUpdate.create`).  Returns the handler outcome and
the resulting store contents. -/
def createLocationUpdate (busExists : ℕ → Bool) (now : ℤ)
    (store : List LocationRecord) (i : IngestInput) :
    Except ApiErr LocationRecord × List LocationRecord :=
  if joiValidates i = false then (.error .badRequest, store)
  else if busExists i.busId = false then (.error .notFound, store)
  else (.ok (mkRecord i now), store ++ [mkRecord i now])

/-- Bounds on the request fields in the spec's vocabulary, with the bounds
the Joi schema actually enforces (note: `heading` bound is the inclusive
interval `[0,360]`).  Optional fields are constrained only when present. -/
def boundsOk (i : IngestInput) : Prop :=
  (-90 ≤ i.coordinates.lat ∧ i.coordinates.lat ≤ 90) ∧
  (-180 ≤ i.coordinates.lng ∧ i.coordinates.lng ≤ 180) ∧
  (∀ s, i.speed = some s → 0 ≤ s ∧ s ≤ 120) ∧
  (∀ h, i.heading = some h → 0 ≤ h ∧ h ≤ 360) ∧
  (∀ a, i.accuracy = some a → 0 ≤ a)

/-- The `DELETE /api/locations/cleanup` handler `cleanupOldLocations`:
`days = parseInt(req.query.days) || 30` (absent, non-numeric, or zero all
fall back to 30), `cutoffDate = now - days*24h`, then
`deleteMany({timestamp: {$lt: cutoffDate}})`.  Returns the deleted count
and the remaining store. -/
def cleanupOldLocations (daysQ : Option ℤ) (now : ℤ)
    (store : List LocationRecord) : ℕ × List LocationRecord :=
  let days : ℤ := match daysQ with | none => 30 | some d => if d = 0 then 30 else d
  let cutoff := now - days * 86400000
  ((store.filter fun r => decide (r.timestamp < cutoff)).length,
   store.filter fun r => !decide (r.timestamp < cutoff))

/-- A sample 40 days old at the witness epoch. -/
def oldSample : LocationRecord :=
  { busId := 1, tripId := none, coordinates := ⟨7, 80⟩, speed := 0,
    heading := none, accuracy := none, timestamp := 0, status := .stopped }

/-- A sample one day old at the witness epoch. -/
def freshSample : LocationRecord :=
  { busId := 1, tripId := none, coordinates := ⟨7, 80⟩, speed := 40,
    heading := none, accuracy := none, timestamp := 3369600000,
    status := .moving }

/-- Ascending-timestamp order used by `.sort({ timestamp: 1 })`. -/
def tsLe (a b : LocationRecord) : Prop := a.timestamp ≤ b.timestamp

instance : DecidableRel tsLe :=
  fun a b => inferInstanceAs (Decidable (a.timestamp ≤ b.timestamp))

instance : IsTotal LocationRecord tsLe :=
  ⟨fun a b => Int.le_total a.timestamp b.timestamp⟩

instance : IsTrans LocationRecord tsLe :=
  ⟨fun _ _ _ hab hbc => le_trans hab hbc⟩

/-- JS `array.slice(0, n)`: for `n ≥ 0` the first `n` elements; for
negative `n`, everything but the last `|n|` elements. -/
def jsSlice0 {α : Type} (n : ℤ) (l : List α) : List α :=
  if 0 ≤ n then l.take n.toNat else l.take (l.length - (-n).toNat)

/-- The documents matched by the Mongo query of
`locationUpdateSchema.statics.getLocationHistory`:
`{busId, timestamp: {$gte: startTime, $lte: endTime}}`. -/
def historyWindow (store : List LocationRecord) (b : ℕ) (s e : ℤ) :
    List LocationRecord :=
  store.filter fun r =>
    decide (r.busId = b) && decide (s ≤ r.timestamp) && decide (r.timestamp ≤ e)

/-- The model static `getLocationHistory`: the window query followed by
`.sort({ timestamp: 1 })` (a stable comparison sort, modelled by insertion
sort). -/
def getLocationHistoryDocs (store : List LocationRecord) (b : ℕ)
    (s e : ℤ) : List LocationRecord :=
  List.insertionSort tsLe (historyWindow store b s e)

/-- The `GET /api/locations/bus/:busId/history` controller:
`limit = parseInt(req.query.limit) || 100`, window defaults
`[now - 24h, now]`, then `locations.slice(0, limit)`. -/
def getLocationHistory (store : List LocationRecord) (b : ℕ)
    (startQ endQ limitQ : Option ℤ) (now : ℤ) : List LocationRecord :=
  let limit : ℤ :=
    match limitQ with | none => 100 | some l => if l = 0 then 100 else l
  let endT := endQ.getD now
  let startT := startQ.getD (now - 86400000)
  jsSlice0 limit (getLocationHistoryDocs store b startT endT)

/-- A history sample of vehicle 1 at time `t`. -/
def histSample (t : ℤ) : LocationRecord :=
  { busId := 1, tripId := none, coordinates := ⟨7, 80⟩, speed := 10,
    heading := none, accuracy := none, timestamp := t, status := .moving }

/-- Model of `Number.prototype.toFixed(2)` followed by `parseFloat`, on exact
rationals: round to the nearest multiple of 1/100 (ties toward the larger
value, as specified for `toFixed`). -/
def round2 (x : ℚ) : ℚ := ((round (x * 100) : ℤ) : ℚ) / 100

/-- Ascending order on proximity entries by their (rounded) distance,
as in `.sort((a, b) => parseFloat(a.distance) - parseFloat(b.distance))`. -/
def distLe (p q : LocationRecord × ℚ) : Prop := p.2 ≤ q.2

instance : DecidableRel distLe :=
  fun p q => inferInstanceAs (Decidable (p.2 ≤ q.2))

instance : IsTotal (LocationRecord × ℚ) distLe :=
  ⟨fun p q => le_total p.2 q.2⟩

instance : IsTrans (LocationRecord × ℚ) distLe :=
  ⟨fun _ _ _ hab hbc => le_trans hab hbc⟩

/-- The `GET /api/locations/nearby` handler `getNearbyBuses`.  The
Distance Engine is passed as a parameter `dist` (the source calls the
static `LocationUpdate.calculateDistance`, which computes in binary64
floating point; the pipeline below is exact).  Steps: radius
`parseFloat(req.query.radius) || 5` (absent, non-numeric, or zero fall
back to 5; any other parsed value — including negative — is used as-is);
reject if lat or lng missing; keep samples of the last 10 minutes; pair
each with its distance rounded to two decimals; keep entries whose
rounded distance is at most the radius; sort ascending by rounded
distance. -/
def getNearbyBuses (dist : ℚ → ℚ → ℚ → ℚ → ℚ)
    (latQ lngQ radiusQ : Option ℚ) (now : ℤ)
    (store : List LocationRecord) :
    Except ApiErr (List (LocationRecord × ℚ)) :=
  let radius : ℚ :=
    match radiusQ with | none => 5 | some r => if r = 0 then 5 else r
  match latQ, lngQ with
  | some lat, some lng =>
      let recentTime := now - 600000
      let recent := store.filter fun rec => decide (recentTime ≤ rec.timestamp)
      let withDist := recent.map fun rec =>
        (rec, round2 (dist lat lng rec.coordinates.lat rec.coordinates.lng))
      let nearby := withDist.filter fun p => decide (p.2 ≤ radius)
      .ok (List.insertionSort distLe nearby)
  | _, _ => .error .badRequest

instance {ε α : Type} [DecidableEq ε] [DecidableEq α] :
    DecidableEq (Except ε α) := fun x y =>
  match x, y with
  | .error e, .error f =>
      if h : e = f then isTrue (by rw [h]) else
        isFalse fun hc => h (by injection hc)
  | .error _, .ok _ => isFalse fun hc => Except.noConfusion hc
  | .ok _, .error _ => isFalse fun hc => Except.noConfusion hc
  | .ok a, .ok b =>
      if h : a = b then isTrue (by rw [h]) else
        isFalse fun hc => h (by injection hc)

/-- A recent sample used to exercise the proximity search. -/
def nearSample : LocationRecord :=
  { busId := 1, tripId := none, coordinates := ⟨7, 80⟩, speed := 40,
    heading := none, accuracy := none, timestamp := 600000,
    status := .moving }

/-- A test Distance Engine that reports the sample's latitude as its
distance from the query point. -/
def axisDist (q1 q2 la ln : ℚ) : ℚ := la

/-- A recent sample 2 km (under `axisDist`) from the origin. -/
def prox2 : LocationRecord :=
  { busId := 2, tripId := none, coordinates := ⟨2, 0⟩, speed := 20,
    heading := none, accuracy := none, timestamp := 0, status := .moving }

/-- A recent sample 8 km (under `axisDist`) from the origin. -/
def prox8 : LocationRecord :=
  { busId := 3, tripId := none, coordinates := ⟨8, 0⟩, speed := 20,
    heading := none, accuracy := none, timestamp := 0, status := .moving }

/-- A vehicle in the Vehicle Directory (`Bus` model); `active` is the
`status === 'active'` flag. -/
structure Bus where
  id : ℕ
  registrationNumber : ℕ
  routeId : ℕ
  active : Bool
  deriving DecidableEq, Repr

/-- One entry of the fleet snapshot assembled by
`getAllBusesLatestLocation`. -/
structure FleetEntry where
  busId : ℕ
  registrationNumber : ℕ
  routeId : ℕ
  lastLocation : Option LocationRecord
  deriving DecidableEq, Repr

/-- Model of `Promise.all` over already-settled outcomes: rejects with the first
rejection, otherwise resolves with all values in order. -/
def promiseAll {α : Type} : List (Except ApiErr α) → Except ApiErr (List α)
  | [] => .ok []
  | .error e :: _ => .error e
  | .ok a :: xs =>
      match promiseAll xs with
      | .error e => .error e
      | .ok as => .ok (a :: as)

/-- The `GET /api/locations/all-buses` handler `getAllBusesLatestLocation`:
fetch active buses, fan out one latest-location lookup per bus,
`Promise.all` the lookups, then drop buses whose `lastLocation` is null.
The per-bus lookup (a `findOne` sorted by descending timestamp) is passed
as a parameter so that its failure can be modelled. -/
def getAllBusesLatestLocation (buses : List Bus)
    (lookup : ℕ → Except ApiErr (Option LocationRecord)) :
    Except ApiErr (List FleetEntry) :=
  let active := buses.filter fun b => b.active
  match promiseAll (active.map fun b =>
    (lookup b.id).map fun loc =>
      FleetEntry.mk b.id b.registrationNumber b.routeId loc) with
  | .error e => .error e
  | .ok entries => .ok (entries.filter fun e => e.lastLocation.isSome)

/-- JS `Math.atan2` on the reals. -/
noncomputable def atan2 (y x : ℝ) : ℝ :=
  if 0 < x then Real.arctan (y / x)
  else if x = 0 then
    if 0 < y then Real.pi / 2 else if y < 0 then -(Real.pi / 2) else 0
  else
    if 0 ≤ y then Real.arctan (y / x) + Real.pi
    else Real.arctan (y / x) - Real.pi

/-- The intermediate `a` of `locationUpdateSchema.statics.calculateDistance`:
`sin(dLat/2)·sin(dLat/2) + cos(lat1·π/180)·cos(lat2·π/180)·sin(dLng/2)·sin(dLng/2)`
with `dLat = (lat2-lat1)·π/180` and `dLng = (lng2-lng1)·π/180`. -/
noncomputable def haversineA (lat1 lng1 lat2 lng2 : ℝ) : ℝ :=
  Real.sin ((lat2 - lat1) * (Real.pi / 180) / 2) *
    Real.sin ((lat2 - lat1) * (Real.pi / 180) / 2) +
  Real.cos (lat1 * (Real.pi / 180)) * Real.cos (lat2 * (Real.pi / 180)) *
    Real.sin ((lng2 - lng1) * (Real.pi / 180) / 2) *
    Real.sin ((lng2 - lng1) * (Real.pi / 180) / 2)

/-- The static `locationUpdateSchema.statics.calculateDistance`: the haversine
great-circle distance with Earth radius `R = 6371` km,
`distance = R · (2 · atan2(√a, √(1-a)))`. -/
noncomputable def calculateDistance (lat1 lng1 lat2 lng2 : ℝ) : ℝ :=
  6371 * (2 * atan2 (Real.sqrt (haversineA lat1 lng1 lat2 lng2))
    (Real.sqrt (1 - haversineA lat1 lng1 lat2 lng2)))

/-- The Joi check passes exactly when all declared bounds hold and no
client motion-status key is present. -/
theorem joiValidates_iff (i : IngestInput) :
    joiValidates i = true ↔ (boundsOk i ∧ i.clientStatus = none) := by
  obtain ⟨bid, tid, ⟨la, ln⟩, sp, hd, ac, ts, cs⟩ := i
  simp only [joiValidates, boundsOk, Bool.and_eq_true, decide_eq_true_eq,
    Option.isNone_iff_eq_none]
  cases sp <;> cases hd <;> cases ac <;> simp <;> tauto

/-- C1: for every ingested sample with valid speed in [0,120], the stored
motion status is `stopped` when the speed is 0, `idle` when it is strictly
between 0 and 5, and `moving` when it is at least 5 (so speed exactly 5
classifies as `moving` and speed exactly 0 as `stopped`). -/
theorem motion_classifier_correct (speed : ℚ)
    (h0 : 0 ≤ speed) (h120 : speed ≤ 120) :
    (speed = 0 → classifyStatus speed = .stopped) ∧
    (0 < speed → speed < 5 → classifyStatus speed = .idle) ∧
    (5 ≤ speed → classifyStatus speed = .moving) := by
  refine ⟨fun hz => ?_, fun hp h5 => ?_, fun h5 => ?_⟩
  · simp [classifyStatus, hz]
  · have hne : speed ≠ 0 := ne_of_gt hp
    simp [classifyStatus, hne, hp, h5]
  · have hne : speed ≠ 0 := by positivity
    have hn5 : ¬ speed < 5 := not_lt.mpr h5
    simp [classifyStatus, hne, hn5]

/-- Witness for C1 at the boundary speed 5. -/
theorem motion_classifier_correct_witness :
    classifyStatus 5 = .moving :=
  (motion_classifier_correct 5 (by norm_num) (by norm_num)).2.2 (by norm_num)

/-- C6 (amended): ingestion of a payload without extraneous keys fails with
InvalidInput (HTTP 400) exactly when a declared bound is violated — lat
outside [-90,90], lng outside [-180,180], speed outside [0,120], heading
outside the inclusive [0,360], or negative accuracy — and fails with
NotFound (HTTP 404) exactly when all bounds hold but the vehicleId does not
resolve (validation runs before resolution, so InvalidInput takes
precedence); in either error case no sample is persisted. -/
theorem ingest_error_classification (busExists : ℕ → Bool) (now : ℤ)
    (store : List LocationRecord) (i : IngestInput)
    (hcs : i.clientStatus = none) :
    (((createLocationUpdate busExists now store i).1 = .error .badRequest) ↔
      ¬ boundsOk i) ∧
    (((createLocationUpdate busExists now store i).1 = .error .notFound) ↔
      (boundsOk i ∧ busExists i.busId = false)) ∧
    (∀ e, (createLocationUpdate busExists now store i).1 = .error e →
      (createLocationUpdate busExists now store i).2 = store) := by
  have hiff := joiValidates_iff i
  cases hjv : joiValidates i with
  | false =>
      have hnb : ¬ boundsOk i := fun hb => by
        rw [hiff.mpr ⟨hb, hcs⟩] at hjv
        exact Bool.noConfusion hjv
      simp [createLocationUpdate, hjv, hnb]
  | true =>
      have hb : boundsOk i := (hiff.mp hjv).1
      cases hbe : busExists i.busId with
      | false => simp [createLocationUpdate, hjv, hbe, hb]
      | true => simp [createLocationUpdate, hjv, hbe, hb]

/-- Witness for C6: a fully in-bounds payload whose busId does not resolve
is rejected with NotFound. -/
theorem ingest_error_classification_witness :
    (createLocationUpdate (fun _ => false) 0 []
      { busId := 1, tripId := none, coordinates := ⟨7, 80⟩,
        speed := some 40, heading := none, accuracy := none,
        timestamp := none, clientStatus := none }).1 = .error .notFound :=
  ((ingest_error_classification (fun _ => false) 0 []
    { busId := 1, tripId := none, coordinates := ⟨7, 80⟩,
      speed := some 40, heading := none, accuracy := none,
      timestamp := none, clientStatus := none } rfl).2.1).mpr
    ⟨by
      refine ⟨⟨by norm_num, by norm_num⟩, ⟨by norm_num, by norm_num⟩, ?_,
        fun h hh => by simp at hh, fun a ha => by simp at ha⟩
      intro s hs
      injection hs with h
      subst h
      exact ⟨by norm_num, by norm_num⟩, rfl⟩

/-- Counterexample for C6 as stated: a payload with heading exactly 360
(outside the claimed interval [0,360)) is accepted and stored, not
rejected with InvalidInput, because the Joi `heading` upper bound is
inclusive. -/
theorem ingest_heading_360_counterexample :
    (createLocationUpdate (fun _ => true) 0 []
      { busId := 1, tripId := none, coordinates := ⟨7, 80⟩,
        speed := some 40, heading := some 360, accuracy := none,
        timestamp := none, clientStatus := none }).1 =
      .ok (mkRecord
        { busId := 1, tripId := none, coordinates := ⟨7, 80⟩,
          speed := some 40, heading := some 360, accuracy := none,
          timestamp := none, clientStatus := none } 0) ∧
    ¬ ((360 : ℚ) < 360) := by
  constructor
  · rfl
  · norm_num

/-- C4 (amended): the stored sample's timestamp always equals the ingestion
time: the controller sets `timestamp: new Date()`, so a caller-provided
timestamp is accepted by validation but ignored. -/
theorem ingest_timestamp_is_server_time (busExists : ℕ → Bool) (now : ℤ)
    (store : List LocationRecord) (i : IngestInput) (r : LocationRecord)
    (st : List LocationRecord)
    (h : createLocationUpdate busExists now store i = (.ok r, st)) :
    r.timestamp = now := by
  simp only [createLocationUpdate] at h
  split at h
  · exact absurd (congrArg Prod.fst h) (by simp)
  · split at h
    · exact absurd (congrArg Prod.fst h) (by simp)
    · have : mkRecord i now = r := by
        have := congrArg Prod.fst h
        simpa using this
      rw [← this]
      rfl

/-- Witness for C4 (amended): a concrete ingestion at time 2000 stores
timestamp 2000. -/
theorem ingest_timestamp_is_server_time_witness :
    (mkRecord
      { busId := 1, tripId := none, coordinates := ⟨7, 80⟩,
        speed := some 40, heading := none, accuracy := none,
        timestamp := some 1000, clientStatus := none } 2000).timestamp =
      2000 :=
  ingest_timestamp_is_server_time (fun _ => true) 2000 []
    { busId := 1, tripId := none, coordinates := ⟨7, 80⟩,
      speed := some 40, heading := none, accuracy := none,
      timestamp := some 1000, clientStatus := none }
    (mkRecord
      { busId := 1, tripId := none, coordinates := ⟨7, 80⟩,
        speed := some 40, heading := none, accuracy := none,
        timestamp := some 1000, clientStatus := none } 2000)
    [mkRecord
      { busId := 1, tripId := none, coordinates := ⟨7, 80⟩,
        speed := some 40, heading := none, accuracy := none,
        timestamp := some 1000, clientStatus := none } 2000]
    rfl

/-- Counterexample for C4 as stated: a successful ingestion that supplies
timestamp 1000 at ingestion time 2000 stores timestamp 2000, not the
caller-provided 1000. -/
theorem ingest_caller_timestamp_ignored_counterexample :
    (createLocationUpdate (fun _ => true) 2000 []
      { busId := 1, tripId := none, coordinates := ⟨7, 80⟩,
        speed := some 40, heading := none, accuracy := none,
        timestamp := some 1000, clientStatus := none }).1 =
      .ok (mkRecord
        { busId := 1, tripId := none, coordinates := ⟨7, 80⟩,
          speed := some 40, heading := none, accuracy := none,
          timestamp := some 1000, clientStatus := none } 2000) ∧
    (mkRecord
      { busId := 1, tripId := none, coordinates := ⟨7, 80⟩,
        speed := some 40, heading := none, accuracy := none,
        timestamp := some 1000, clientStatus := none } 2000).timestamp ≠
      1000 := by
  constructor
  · rfl
  · decide

/-- C10: the stored motionStatus is never taken from client input — for any
two ingestion requests identical except for a client-supplied motion-status
field, any stored samples carry the same motionStatus, which is always
recomputed from the (defaulted) speed at write time. -/
theorem status_independent_of_client_status (busExists : ℕ → Bool)
    (now : ℤ) (store : List LocationRecord) (i : IngestInput)
    (s₁ s₂ : Option MotionStatus) (r₁ r₂ : LocationRecord)
    (h₁ : (createLocationUpdate busExists now store
      { i with clientStatus := s₁ }).1 = .ok r₁)
    (h₂ : (createLocationUpdate busExists now store
      { i with clientStatus := s₂ }).1 = .ok r₂) :
    r₁.status = r₂.status ∧
    r₁.status = classifyStatus (i.speed.getD 0) := by
  have key : ∀ (s : Option MotionStatus) (r : LocationRecord),
      (createLocationUpdate busExists now store
        { i with clientStatus := s }).1 = .ok r →
      r = mkRecord i now := by
    intro s r h
    simp only [createLocationUpdate] at h
    split at h
    · exact absurd h (by simp)
    · split at h
      · exact absurd h (by simp)
      · have : mkRecord { i with clientStatus := s } now = r := by
          simpa using h
        rw [← this]
        rfl
  rw [key s₁ r₁ h₁, key s₂ r₂ h₂]
  exact ⟨rfl, rfl⟩

/-- Witness for C10: two identical concrete requests (no motion-status key)
store the same recomputed motionStatus. -/
theorem status_independent_of_client_status_witness :
    (mkRecord
      { busId := 1, tripId := none, coordinates := ⟨7, 80⟩,
        speed := some 40, heading := none, accuracy := none,
        timestamp := none, clientStatus := none } 5).status =
      (mkRecord
        { busId := 1, tripId := none, coordinates := ⟨7, 80⟩,
          speed := some 40, heading := none, accuracy := none,
          timestamp := none, clientStatus := none } 5).status ∧
    (mkRecord
      { busId := 1, tripId := none, coordinates := ⟨7, 80⟩,
        speed := some 40, heading := none, accuracy := none,
        timestamp := none, clientStatus := none } 5).status =
      classifyStatus (Option.getD (some (40 : ℚ)) 0) :=
  status_independent_of_client_status (fun _ => true) 5 []
    { busId := 1, tripId := none, coordinates := ⟨7, 80⟩,
      speed := some 40, heading := none, accuracy := none,
      timestamp := none, clientStatus := none } none none
    (mkRecord
      { busId := 1, tripId := none, coordinates := ⟨7, 80⟩,
        speed := some 40, heading := none, accuracy := none,
        timestamp := none, clientStatus := none } 5)
    (mkRecord
      { busId := 1, tripId := none, coordinates := ⟨7, 80⟩,
        speed := some 40, heading := none, accuracy := none,
        timestamp := none, clientStatus := none } 5)
    rfl rfl

/-- Filtering by a predicate after filtering by its negation yields nothing. -/
theorem filter_not_filter_self {α : Type} (p : α → Bool) (l : List α) :
    (l.filter fun a => !p a).filter p = [] := by
  induction l with
  | nil => rfl
  | cons a t ih => cases h : p a <;> simp [List.filter_cons, h, ih]

/-- Filtering twice by the negation of a predicate is the same as once. -/
theorem filter_not_idem {α : Type} (p : α → Bool) (l : List α) :
    (l.filter fun a => !p a).filter (fun a => !p a) =
      l.filter fun a => !p a := by
  induction l with
  | nil => rfl
  | cons a t ih => cases h : p a <;> simp [List.filter_cons, h, ih]

/-- C7: `purgeOlderThan(days)` deletes exactly the samples with
`timestamp < now - days*24h`, returns the deleted count, never deletes a
sample with `timestamp ≥ cutoff`, is idempotent (an immediately repeated
call with the same `now` and `days` deletes zero additional records), and
`days` defaults to 30 when unspecified. -/
theorem purge_correct (d : ℤ) (now : ℤ) (store : List LocationRecord)
    (hd : 1 ≤ d) :
    ((cleanupOldLocations (some d) now store).1 =
      (store.filter fun r => decide (r.timestamp < now - d * 86400000)).length) ∧
    (∀ r ∈ store, now - d * 86400000 ≤ r.timestamp →
      r ∈ (cleanupOldLocations (some d) now store).2) ∧
    (∀ r ∈ (cleanupOldLocations (some d) now store).2,
      ¬ r.timestamp < now - d * 86400000) ∧
    ((cleanupOldLocations (some d) now
      (cleanupOldLocations (some d) now store).2).1 = 0) ∧
    ((cleanupOldLocations (some d) now
      (cleanupOldLocations (some d) now store).2).2 =
      (cleanupOldLocations (some d) now store).2) ∧
    (∀ st : List LocationRecord,
      cleanupOldLocations none now st = cleanupOldLocations (some 30) now st) := by
  have hdz : d ≠ 0 := by omega
  refine ⟨by simp [cleanupOldLocations, hdz], fun r hr hts => ?_, fun r hr => ?_,
    ?_, ?_, fun st => ?_⟩
  · simp only [cleanupOldLocations, hdz, if_false]
    exact List.mem_filter.mpr ⟨hr, by simpa using not_lt.mpr hts⟩
  · simp only [cleanupOldLocations, hdz, if_false] at hr
    simpa using (List.mem_filter.mp hr).2
  · simp only [cleanupOldLocations, hdz, if_false]
    rw [filter_not_filter_self]
    rfl
  · simp only [cleanupOldLocations, hdz, if_false]
    exact filter_not_idem _ _
  · simp [cleanupOldLocations]

/-- Witness for C7: with samples 40 days and 1 day old, a repeated
`purgeOlderThan(30)` deletes zero additional records. -/
theorem purge_correct_witness :
    (cleanupOldLocations (some 30) 3456000000
      (cleanupOldLocations (some 30) 3456000000
        [oldSample, freshSample]).2).1 = 0 :=
  (purge_correct 30 3456000000 [oldSample, freshSample]
    (by norm_num)).2.2.2.1

/-- C3: for every vehicle and time window, the history endpoint returns
exactly the vehicle's samples with `startTime ≤ timestamp ≤ endTime`,
ascending by timestamp, truncated to the earliest `limit` entries, with
`limit` defaulting to 100 when unspecified (its minimum meaningful value
being 1), and the window defaulting to `[now - 24h, now]`. -/
theorem history_window_correct (store : List LocationRecord) (b : ℕ)
    (startQ endQ limitQ : Option ℤ) (now : ℤ) (s e : ℤ)
    (hs : s = startQ.getD (now - 86400000)) (he : e = endQ.getD now)
    (hlim : ∀ l, limitQ = some l → 1 ≤ l) :
    List.Sorted tsLe (getLocationHistory store b startQ endQ limitQ now) ∧
    getLocationHistory store b startQ endQ limitQ now =
      (getLocationHistoryDocs store b s e).take ((limitQ.getD 100).toNat) ∧
    List.Perm (getLocationHistoryDocs store b s e)
      (historyWindow store b s e) ∧
    List.Sorted tsLe (getLocationHistoryDocs store b s e) ∧
    (∀ r, r ∈ historyWindow store b s e ↔
      r ∈ store ∧ r.busId = b ∧ s ≤ r.timestamp ∧ r.timestamp ≤ e) := by
  subst hs he
  have hres : getLocationHistory store b startQ endQ limitQ now =
      (getLocationHistoryDocs store b (startQ.getD (now - 86400000))
        (endQ.getD now)).take ((limitQ.getD 100).toNat) := by
    cases limitQ with
    | none => norm_num [getLocationHistory, jsSlice0]
    | some l =>
        have hl := hlim l rfl
        have hlz : l ≠ 0 := by omega
        have h0l : (0 : ℤ) ≤ l := by omega
        simp [getLocationHistory, jsSlice0, hlz, h0l]
  have hsorted : List.Sorted tsLe
      (getLocationHistoryDocs store b (startQ.getD (now - 86400000))
        (endQ.getD now)) :=
    List.sorted_insertionSort tsLe _
  refine ⟨?_, hres, List.perm_insertionSort tsLe _, hsorted, fun r => ?_⟩
  · rw [hres]
    exact List.Pairwise.sublist (List.take_sublist _ _) hsorted
  · simp [historyWindow, List.mem_filter, and_assoc]

/-- Witness for C3: five samples one minute apart, window `[0, 3 min]`,
limit 2: the endpoint returns the earliest two samples in the window. -/
theorem history_window_correct_witness :
    getLocationHistory
      [histSample 0, histSample 60000, histSample 120000,
        histSample 180000, histSample 240000] 1
      (some 0) (some 180000) (some 2) 240000 =
      (getLocationHistoryDocs
        [histSample 0, histSample 60000, histSample 120000,
          histSample 180000, histSample 240000] 1 0 180000).take
        (((some (2 : ℤ)).getD 100).toNat) :=
  (history_window_correct
    [histSample 0, histSample 60000, histSample 120000,
      histSample 180000, histSample 240000] 1
    (some 0) (some 180000) (some 2) 240000 0 180000 rfl rfl
    (fun l hl => by injection hl with h; omega)).2.1

/-- Filtering a mapped-over filtered list fuses into one filter under the
map. -/
theorem map_filter_fuse {α β : Type} (f : α → β) (p : β → Bool)
    (q : α → Bool) (l : List α) :
    ((l.filter q).map f).filter p = (l.filter fun a => p (f a) && q a).map f := by
  induction l with
  | nil => rfl
  | cons a t ih =>
      cases hq : q a <;> cases hp : p (f a) <;>
        simp [List.filter_cons, hq, hp, ih]

/-- C2 (amended): a proximity search with both coordinates and a positive
radius succeeds, and its result consists of exactly those stored samples
whose timestamp is within the last 10 minutes and whose distance from the
query point, rounded to two decimal places, is at most the radius — each
paired with that rounded distance, sorted ascending by rounded distance;
samples older than 10 minutes are excluded regardless of distance. -/
theorem nearby_search_characterization (dist : ℚ → ℚ → ℚ → ℚ → ℚ)
    (lat lng r : ℚ) (now : ℤ) (store : List LocationRecord) (hr : 0 < r) :
    ∃ res,
      getNearbyBuses dist (some lat) (some lng) (some r) now store =
        .ok res ∧
      List.Sorted distLe res ∧
      List.Perm res ((store.filter fun rec =>
        decide (round2 (dist lat lng rec.coordinates.lat
          rec.coordinates.lng) ≤ r) &&
        decide (now - 600000 ≤ rec.timestamp)).map fun rec =>
          (rec, round2 (dist lat lng rec.coordinates.lat
            rec.coordinates.lng))) ∧
      (∀ rec q, (rec, q) ∈ res ↔
        (rec ∈ store ∧ now - 600000 ≤ rec.timestamp ∧
          q = round2 (dist lat lng rec.coordinates.lat
            rec.coordinates.lng) ∧ q ≤ r)) := by
  have hrz : r ≠ 0 := ne_of_gt hr
  have hok : getNearbyBuses dist (some lat) (some lng) (some r) now store =
      .ok (List.insertionSort distLe
        (((store.filter fun rec =>
            decide (now - 600000 ≤ rec.timestamp)).map fun rec =>
          (rec, round2 (dist lat lng rec.coordinates.lat
            rec.coordinates.lng))).filter fun p => decide (p.2 ≤ r))) := by
    simp only [getNearbyBuses, hrz, if_false]
  refine ⟨_, hok, List.sorted_insertionSort distLe _, ?_, ?_⟩
  · refine (List.perm_insertionSort distLe _).trans ?_
    rw [map_filter_fuse]
  · intro rec q
    have hperm := List.perm_insertionSort distLe
      (((store.filter fun rec => decide (now - 600000 ≤ rec.timestamp)).map
        fun rec => (rec, round2 (dist lat lng rec.coordinates.lat
          rec.coordinates.lng))).filter
        fun p => decide (p.2 ≤ r))
    rw [hperm.mem_iff]
    simp only [List.mem_filter, List.mem_map, decide_eq_true_eq]
    constructor
    · rintro ⟨⟨a, ⟨ha1, ha2⟩, heq⟩, hle⟩
      injection heq with h1 h2
      subst h1
      exact ⟨ha1, ha2, h2.symm, hle⟩
    · rintro ⟨hmem, hts, hq, hle⟩
      subst hq
      exact ⟨⟨rec, ⟨hmem, hts⟩, rfl⟩, hle⟩

/-- Witness for C2 (amended): two recent samples at rounded distances 2 km
and 8 km; a search with radius 5 characterizes the result as containing
exactly the 2 km sample. -/
theorem nearby_search_characterization_witness :
    ∃ res,
      getNearbyBuses axisDist (some 0) (some 0) (some 5) 0 [prox2, prox8] =
        .ok res ∧
      List.Sorted distLe res ∧
      List.Perm res (([prox2, prox8].filter fun rec =>
        decide (round2 (axisDist 0 0 rec.coordinates.lat
          rec.coordinates.lng) ≤ 5) &&
        decide ((0 : ℤ) - 600000 ≤ rec.timestamp)).map fun rec =>
          (rec, round2 (axisDist 0 0 rec.coordinates.lat
            rec.coordinates.lng))) ∧
      (∀ rec q, (rec, q) ∈ res ↔
        (rec ∈ [prox2, prox8] ∧ (0 : ℤ) - 600000 ≤ rec.timestamp ∧
          q = round2 (axisDist 0 0 rec.coordinates.lat
            rec.coordinates.lng) ∧ q ≤ 5)) :=
  nearby_search_characterization axisDist 0 0 5 0 [prox2, prox8]
    (by norm_num)

/-- Counterexample for C2 as stated: a sample whose true distance from the
query point is 5.004 km is included by a radius-5 search, because the
filter compares the distance only after rounding it to two decimals
(5.004 rounds to 5.00 ≤ 5), although 5.004 > 5. -/
theorem nearby_rounded_filter_counterexample :
    getNearbyBuses (fun _ _ _ _ => 5004 / 1000) (some 0) (some 0) (some 5)
      600000 [nearSample] = .ok [(nearSample, 5)] ∧
    ¬ ((5004 / 1000 : ℚ) ≤ 5) := by
  have h1 : round2 (5004 / 1000) = 5 := by
    unfold round2
    norm_num [round_eq]
  exact ⟨by simp [getNearbyBuses, nearSample, h1, List.filter,
    List.insertionSort], by norm_num⟩

/-- C8 (amended): the proximity search fails with InvalidInput when lat or
lng is missing; an unspecified (or non-numeric) radius and a radius that
parses to zero both behave as radius 5; a radius that parses to a negative
number is used as-is rather than defaulting. -/
theorem nearby_params_defaults (dist : ℚ → ℚ → ℚ → ℚ → ℚ)
    (latQ lngQ radiusQ : Option ℚ) (now : ℤ)
    (store : List LocationRecord) :
    (latQ = none ∨ lngQ = none →
      getNearbyBuses dist latQ lngQ radiusQ now store =
        .error .badRequest) ∧
    (getNearbyBuses dist latQ lngQ none now store =
      getNearbyBuses dist latQ lngQ (some 5) now store) ∧
    (getNearbyBuses dist latQ lngQ (some 0) now store =
      getNearbyBuses dist latQ lngQ (some 5) now store) := by
  refine ⟨fun h => ?_, ?_, ?_⟩
  · rcases h with h | h
    · subst h; cases lngQ <;> rfl
    · subst h; cases latQ <;> rfl
  · cases latQ <;> cases lngQ <;> norm_num [getNearbyBuses]
  · cases latQ <;> cases lngQ <;> norm_num [getNearbyBuses]

/-- Witness for C8 (amended): a query missing its latitude is rejected
with InvalidInput. -/
theorem nearby_params_defaults_witness :
    getNearbyBuses axisDist none (some 0) none 0 [] =
      .error .badRequest :=
  (nearby_params_defaults axisDist none (some 0) none 0 []).1 (Or.inl rfl)

/-- Counterexample for C8 as stated: a radius that parses to the negative
value -3 is not treated as the default 5 — the search returns nothing,
while the same search with radius 5 returns the nearby sample. -/
theorem nearby_negative_radius_counterexample :
    getNearbyBuses (fun _ _ _ _ => 1) (some 0) (some 0) (some (-3))
      600000 [nearSample] = .ok [] ∧
    getNearbyBuses (fun _ _ _ _ => 1) (some 0) (some 0) (some 5)
      600000 [nearSample] = .ok [(nearSample, 1)] ∧
    (Except.ok ([] : List (LocationRecord × ℚ)) :
      Except ApiErr (List (LocationRecord × ℚ))) ≠ .ok [(nearSample, 1)] := by
  have h1 : round2 1 = 1 := by
    unfold round2
    norm_num [round_eq]
  refine ⟨?_, ?_, by simp⟩
  · simp [getNearbyBuses, nearSample, h1, List.filter, List.insertionSort]
  · simp [getNearbyBuses, nearSample, h1, List.filter, List.insertionSort]

/-- Filtering after mapping is mapping after filtering the composed
predicate. -/
theorem filter_map_comm {α β : Type} (f : α → β) (p : β → Bool)
    (l : List α) :
    (l.map f).filter p = (l.filter fun a => p (f a)).map f := by
  induction l with
  | nil => rfl
  | cons a t ih =>
      cases hp : p (f a) <;> simp [List.filter_cons, hp, ih]

/-- If some element of the fan-out fails, `promiseAll` rejects. -/
theorem promiseAll_map_error {α β : Type} (f : α → Except ApiErr β)
    (l : List α) (h : ∃ a ∈ l, ∃ e, f a = .error e) :
    ∃ e, promiseAll (l.map f) = .error e := by
  induction l with
  | nil => simp at h
  | cons a t ih =>
      rcases h with ⟨x, hx, e, hfx⟩
      rcases List.mem_cons.mp hx with rfl | hxt
      · refine ⟨e, ?_⟩
        simp only [List.map_cons, promiseAll, hfx]
      · cases hfa : f a with
        | error e₂ =>
            refine ⟨e₂, ?_⟩
            simp only [List.map_cons, promiseAll, hfa]
        | ok b =>
            obtain ⟨e₃, he₃⟩ := ih ⟨x, hxt, e, hfx⟩
            refine ⟨e₃, ?_⟩
            simp only [List.map_cons, promiseAll, hfa, he₃]

/-- If every element of the fan-out succeeds with the predicted value,
`promiseAll` resolves with all values in order. -/
theorem promiseAll_map_ok {α β : Type} (f : α → Except ApiErr β)
    (g : α → β) (l : List α) (h : ∀ a ∈ l, f a = .ok (g a)) :
    promiseAll (l.map f) = .ok (l.map g) := by
  induction l with
  | nil => rfl
  | cons a t ih =>
      have ha := h a (List.mem_cons_self a t)
      have ht := ih fun x hx => h x (List.mem_cons_of_mem a hx)
      simp only [List.map_cons, promiseAll, ha, ht]

/-- C5 (amended): failure of a single vehicle's latest-location lookup
aborts the whole fleet snapshot (the `Promise.all` rejection becomes a
request-level error); when every lookup succeeds, the snapshot returns
exactly the active vehicles that have location data, and vehicles whose
lookup succeeds with no data are omitted. -/
theorem fleet_snapshot_failure_propagation (buses : List Bus)
    (lookup : ℕ → Except ApiErr (Option LocationRecord)) :
    ((∃ b ∈ buses.filter (fun b => b.active), ∃ e, lookup b.id = .error e) →
      ∃ e, getAllBusesLatestLocation buses lookup = .error e) ∧
    (∀ locOf : Bus → Option LocationRecord,
      (∀ b ∈ buses.filter (fun b => b.active), lookup b.id = .ok (locOf b)) →
      getAllBusesLatestLocation buses lookup =
        .ok (((buses.filter fun b => b.active).filter fun b =>
          (locOf b).isSome).map fun b =>
            FleetEntry.mk b.id b.registrationNumber b.routeId (locOf b))) := by
  constructor
  · intro h
    obtain ⟨e, he⟩ := promiseAll_map_error
      (fun b => (lookup b.id).map fun loc =>
        FleetEntry.mk b.id b.registrationNumber b.routeId loc)
      (buses.filter fun b => b.active)
      (by
        rcases h with ⟨b, hb, e, hbe⟩
        exact ⟨b, hb, e, by simp [hbe, Except.map]⟩)
    exact ⟨e, by simp only [getAllBusesLatestLocation, he]⟩
  · intro locOf hall
    have hok := promiseAll_map_ok
      (fun b => (lookup b.id).map fun loc =>
        FleetEntry.mk b.id b.registrationNumber b.routeId loc)
      (fun b => FleetEntry.mk b.id b.registrationNumber b.routeId (locOf b))
      (buses.filter fun b => b.active)
      (fun b hb => by simp [hall b hb, Except.map])
    simp only [getAllBusesLatestLocation, hok]
    rw [filter_map_comm
      (fun b : Bus => FleetEntry.mk b.id b.registrationNumber b.routeId
        (locOf b))
      (fun e : FleetEntry => e.lastLocation.isSome)
      (buses.filter fun b => b.active)]

/-- Witness for C5 (amended): one active and one inactive bus, all lookups
succeeding — the snapshot lists exactly the active bus with its data. -/
theorem fleet_snapshot_failure_propagation_witness :
    getAllBusesLatestLocation [⟨1, 11, 21, true⟩, ⟨2, 12, 22, false⟩]
      (fun _ => .ok (some nearSample)) =
      .ok (((([⟨1, 11, 21, true⟩, ⟨2, 12, 22, false⟩] : List Bus).filter
        fun b => b.active).filter
        fun b => (some nearSample).isSome).map fun b =>
          FleetEntry.mk b.id b.registrationNumber b.routeId
            (some nearSample)) :=
  (fleet_snapshot_failure_propagation
    [⟨1, 11, 21, true⟩, ⟨2, 12, 22, false⟩]
    (fun _ => .ok (some nearSample))).2
    (fun _ => some nearSample) (fun _ _ => rfl)

/-- Counterexample for C5 as stated: two active buses; the first bus's
lookup fails while the second bus's lookup succeeds with data, yet the
whole snapshot is a request-level error instead of returning the second
bus. -/
theorem fleet_snapshot_abort_counterexample :
    getAllBusesLatestLocation [⟨1, 11, 21, true⟩, ⟨2, 12, 22, true⟩]
      (fun id => if id = 1 then .error .storeFail
        else .ok (some nearSample)) = .error .storeFail ∧
    (if (2 : ℕ) = 1 then
      (.error .storeFail : Except ApiErr (Option LocationRecord))
      else .ok (some nearSample)) = .ok (some nearSample) := by
  exact ⟨rfl, rfl⟩

/-- The haversine intermediate is symmetric in the two points. -/
theorem haversineA_symm (lat1 lng1 lat2 lng2 : ℝ) :
    haversineA lat1 lng1 lat2 lng2 = haversineA lat2 lng2 lat1 lng1 := by
  unfold haversineA
  have h1 : (lat2 - lat1) * (Real.pi / 180) / 2 =
      -((lat1 - lat2) * (Real.pi / 180) / 2) := by ring
  have h2 : (lng2 - lng1) * (Real.pi / 180) / 2 =
      -((lng1 - lng2) * (Real.pi / 180) / 2) := by ring
  rw [h1, h2, Real.sin_neg, Real.sin_neg]
  ring

/-- The haversine intermediate vanishes on a degenerate pair. -/
theorem haversineA_self (lat lng : ℝ) : haversineA lat lng lat lng = 0 := by
  unfold haversineA
  simp

/-- C9: the Distance Engine (haversine formula, Earth radius 6371 km) is
symmetric — `distance(P,Q) = distance(Q,P)` for all coordinate pairs —
and `distance(P,P) = 0` for every point `P`. -/
theorem distance_symm_and_self_zero (lat1 lng1 lat2 lng2 : ℝ) :
    calculateDistance lat1 lng1 lat2 lng2 =
      calculateDistance lat2 lng2 lat1 lng1 ∧
    calculateDistance lat1 lng1 lat1 lng1 = 0 := by
  constructor
  · unfold calculateDistance
    rw [haversineA_symm]
  · unfold calculateDistance
    rw [haversineA_self]
    simp [atan2]

end BusTracker

